import Mathlib

/-!
Verification of the graph storage/extraction layer (`backend/api_server.py`,
class `GraphDatabaseManager`) and the explanation layer
(`backend/model_service.py`, class `ModelService`) of the fraud-ring
detection service.

The Python code talks to a Neo4j property graph.  We embed the store as a
list of property nodes and typed relationships, embed each Cypher query by
its traversal semantics, and embed the Python dict records returned to the
caller as Lean structures whose `Option` fields model optional dict keys
(`none` = the key is absent from the dict).
-/

namespace FraudGraph

/-- A Neo4j node: internal identity (`element_id`), labels, and a property
map.  Property values are kept as strings; only the "id" property is ever
inspected by the code under verification. -/
structure StoreNode where
  elementId : String
  labels : List String
  props : List (String × String)
deriving DecidableEq, Repr

/-- A Neo4j relationship: internal identity, the element ids of its start
and end nodes, and its type. -/
structure StoreRel where
  relId : String
  startId : String
  endId : String
  type : String
deriving DecidableEq, Repr

/-- The property graph held by the store. -/
structure GraphStore where
  nodes : List StoreNode
  rels : List StoreRel
deriving DecidableEq, Repr

/-- `node.get(key)` on the property map: first binding wins. -/
def lookupProp (props : List (String × String)) (k : String) : Option String :=
  (props.find? (fun p => p.1 = k)).map (fun p => p.2)

/-- Resolve an element id to its node, as the driver does when it
materialises `rel.start_node` / `rel.end_node`. -/
def findNode (g : GraphStore) (eid : String) : Option StoreNode :=
  g.nodes.find? (fun n => n.elementId = eid)

/-- `MATCH (t:Transaction {id: $txn_id})`: the first node labelled
`Transaction` whose "id" property is the requested transaction id. -/
def findTransaction (g : GraphStore) (txn_id : String) : Option StoreNode :=
  g.nodes.find? (fun n => n.labels.contains "Transaction" && lookupProp n.props "id" == some txn_id)

/-- An undirected traversal step: if relationship `r` touches node `x`,
return the opposite endpoint. -/
def relTouches (r : StoreRel) (x : String) : Option String :=
  if r.startId = x then some r.endId
  else if r.endId = x then some r.startId
  else none

/-- All one-hop undirected moves out of `x`, each paired with the
relationship used. -/
def nbrsVia (g : GraphStore) (x : String) : List (StoreRel × String) :=
  g.rels.filterMap (fun r => (relTouches r x).map (fun y => (r, y)))

/-- The undirected neighbours of `x`. -/
def nbrs (g : GraphStore) (x : String) : List String :=
  (nbrsVia g x).map Prod.snd

/-- Element ids of nodes within `k` undirected hops of `t`: the reference
notion of a depth-`k` neighbourhood used by the specification ("all nodes
within 0..depth hops, undirected"). -/
def ball (g : GraphStore) (t : String) : Nat → List String
  | 0 => [t]
  | k + 1 => ball g t k ++ (ball g t k).flatMap (nbrs g)

/-- `collect(DISTINCT ...)` accumulator: drop elements already seen. -/
def distinctAux {α : Type} [DecidableEq α] (seen : List α) : List α → List α
  | [] => []
  | a :: l => if a ∈ seen then distinctAux seen l else a :: distinctAux (a :: seen) l

/-- `collect(DISTINCT ...)`: keep the first occurrence of each element. -/
def distinctList {α : Type} [DecidableEq α] (l : List α) : List α :=
  distinctAux [] l

/-- Endpoints `n` of the undirected variable-length paths of length 1 or
2 enumerated by the pattern `(t)-[*0..2]-(n)` of the simple fallback
query, path by path: every neighbour of `t`, then every endpoint of a
length-2 path whose second relationship differs from its first (Cypher
relationship-uniqueness).  The length-0 path (whose endpoint is `t`)
contributes no relationship rows, so it never survives the query's
`UNWIND`; it is therefore not listed here. -/
def pathEndpoints (g : GraphStore) (t : String) : List String :=
  nbrs g t ++ (nbrsVia g t).flatMap (fun p =>
    (((nbrsVia g p.2).filter (fun q => q.1 ≠ p.1)).map Prod.snd))

/-- The relationship rows the query's `UNWIND` produces for the paths
ending at endpoint `nid`: the relationship of each length-1 path to
`nid`, and both relationships of each length-2 path to `nid`. -/
def relsToEndpoint (g : GraphStore) (t nid : String) : List StoreRel :=
  (((nbrsVia g t).filter (fun p => p.2 = nid)).map Prod.fst) ++
  (nbrsVia g t).flatMap (fun p =>
    (((nbrsVia g p.2).filter (fun q => q.1 ≠ p.1 ∧ q.2 = nid)).flatMap
      (fun q => [p.1, q.1])))

/-- A node dict of a subgraph response.  `id`, `group` are always written
by the code; the remaining keys are optional (`none` = key absent from the
Python dict).  `label`, `color`, `shape`, `size` are only written later by
the explanation layer. -/
structure SGNode where
  id : String
  group : String
  properties : Option (List (String × String)) := none
  label : Option String := none
  color : Option String := none
  shape : Option String := none
  size : Option Nat := none
deriving DecidableEq, Repr

/-- An edge dict of a subgraph response: `from`, `to`, `title` keys, plus
the `width` key written later by the explanation layer. -/
structure SGEdge where
  source : String
  target : String
  title : String
  width : Option Nat := none
deriving DecidableEq, Repr

/-- A `{"nodes": [...], "edges": [...]}` subgraph response. -/
structure Subgraph where
  nodes : List SGNode
  edges : List SGEdge
deriving DecidableEq, Repr

/-- Node projection of `get_transaction_subgraph`:
`group = labels[0].lower() if labels else "unknown"`,
`id = node.get("id", node.element_id)`, `properties = dict(node)`. -/
def projectNode (n : StoreNode) : SGNode :=
  { id := (lookupProp n.props "id").getD n.elementId
    group := match n.labels with
      | [] => "unknown"
      | l :: _ => l.toLower
    properties := some n.props }

/-- Edge projection of `get_transaction_subgraph`:
`from`/`to` are `end.get("id", end.element_id)` for the start/end nodes,
`title` is the relationship type. -/
def projectRel (g : GraphStore) (r : StoreRel) : SGEdge :=
  { source := match findNode g r.startId with
      | some n => (lookupProp n.props "id").getD n.elementId
      | none => r.startId
    target := match findNode g r.endId with
      | some n => (lookupProp n.props "id").getD n.elementId
      | none => r.endId
    title := r.type }

/-- `GraphDatabaseManager._generate_mock_subgraph`: the fixed synthetic
fallback subgraph, seeded only by the transaction id.  The Python node
dicts carry only `id` and `group` (no `properties` key). -/
def generateMockSubgraph (transaction_id : String) : Subgraph :=
  { nodes :=
      [ { id := transaction_id, group := "transaction" },
        { id := "user_1", group := "user" },
        { id := "pmt_A", group := "paymenttoken" },
        { id := "email_X", group := "email" },
        { id := "fraud_1", group := "transaction" },
        { id := "fraud_2", group := "transaction" },
        { id := "pmt_B", group := "paymenttoken" } ]
    edges :=
      [ { source := transaction_id, target := "user_1", title := "PERFORMED_BY" },
        { source := "user_1", target := "pmt_A", title := "USED_TOKEN" },
        { source := "pmt_A", target := "pmt_B", title := "SHARED_TOKEN_LINK" },
        { source := "pmt_B", target := "fraud_1", title := "USED_IN" },
        { source := "pmt_B", target := "fraud_2", title := "USED_IN" } ] }

/-- One record of the simple fallback query for the endpoint `nid`: the
query's `WITH` groups its rows by `relationships(path)` (a non-aggregated
projection is a Cypher grouping key), so `nodes` is collected per path as
`[t, n]`; the final `RETURN` then groups by that `nodes` list, yielding
one record per distinct endpoint, whose `relationships` collects the
distinct relationships of all enumerated paths ending there. -/
def recordForEndpoint (g : GraphStore) (t : StoreNode) (nid : String) :
    List StoreNode × List StoreRel :=
  (t :: (findNode g nid).toList, distinctList (relsToEndpoint g t.elementId nid))

/-- The records of the simple fallback query, one per distinct path
endpoint, in path-enumeration order.  The store streams them in an order
of its own choosing; theorems quantify over that order. -/
def simpleRecords (g : GraphStore) (t : StoreNode) :
    List (List StoreNode × List StoreRel) :=
  (distinctList (pathEndpoints g t.elementId)).map (recordForEndpoint g t)

/-- The store handle held by `GraphDatabaseManager`: the graph, whether
the optional APOC traversal capability is present, and the order in
which the store streams the records of the simple fallback query —
unspecified by the store, so modelled as an arbitrary permutation held
by the handle.  A manager whose connection failed holds no driver at all
(`Option Driver = none` at the call sites below). -/
structure Driver where
  store : GraphStore
  apocAvailable : Bool
  reorder : List (List StoreNode × List StoreRel) → List (List StoreNode × List StoreRel)
  reorder_perm : ∀ l, List.Perm (reorder l) l

/-- The APOC tier of `get_transaction_subgraph`:
`apoc.path.subgraphAll(t, {relationshipFilter: "*", minLevel: 0,
maxLevel: $depth})` — all nodes within `depth` undirected hops of the
matched transaction node and the relationships among them.  `none` models
every path that raises into the simple-query fallback: a failed `MATCH`
(`record` is `None`) or an empty node list (`raise Exception("No subgraph
found")`). -/
def apocTier (g : GraphStore) (txn_id : String) (depth : Nat) :
    Option (List StoreNode × List StoreRel) :=
  match findTransaction g txn_id with
  | none => none
  | some t =>
    let ids := ball g t.elementId depth
    let ns := ids.dedup.filterMap (findNode g)
    if ns.isEmpty then none
    else some (ns, g.rels.filter (fun r => ids.contains r.startId && ids.contains r.endId))

/-- The simple tier of `get_transaction_subgraph`: the bounded path match
`MATCH (t:Transaction {id: $txn_id}) OPTIONAL MATCH path = (t)-[*0..2]-(n)`
followed by `WITH collect(DISTINCT t) + collect(DISTINCT n) as nodes,
relationships(path) as rels`, `UNWIND rels as rel` and `RETURN nodes,
collect(DISTINCT rel) as relationships`.  Because of the implicit
grouping described at `recordForEndpoint`, the query yields one record
per distinct path endpoint, and `result.single()` consumes only the
first record of the stream (warning when there are several); `reorder`
supplies the store's unspecified stream order.  `none` models the two
ways `result.single()` is `None`: the `MATCH` finds no transaction node,
or no path of length ≥ 1 exists, so the `UNWIND` eliminates every row;
in both cases the code falls back to the mock subgraph. -/
def simpleTier (g : GraphStore) (txn_id : String)
    (reorder : List (List StoreNode × List StoreRel) → List (List StoreNode × List StoreRel)) :
    Option (List StoreNode × List StoreRel) :=
  match findTransaction g txn_id with
  | none => none
  | some t => (reorder (simpleRecords g t)).head?

/-- Project a traversal-tier record into the response subgraph. -/
def projectTier (g : GraphStore) (tr : List StoreNode × List StoreRel) : Subgraph :=
  { nodes := tr.1.map projectNode, edges := tr.2.map (projectRel g) }

/-- The simple-query fallback of `get_transaction_subgraph`: project the
record of the bounded path match, returning the mock subgraph when the
query yields no record (`if not record`) or no nodes (`if not nodes`). -/
def simpleOrMock (g : GraphStore) (transaction_id : String)
    (reorder : List (List StoreNode × List StoreRel) → List (List StoreNode × List StoreRel)) :
    Subgraph :=
  match simpleTier g transaction_id reorder with
  | none => generateMockSubgraph transaction_id
  | some tr =>
    if (projectTier g tr).nodes.isEmpty then generateMockSubgraph transaction_id
    else projectTier g tr

/-- `GraphDatabaseManager.get_transaction_subgraph(transaction_id, depth)`:
no driver → mock subgraph; otherwise try the APOC query (only when the
capability is present), falling back to the simple bounded query, which
itself falls back to the mock subgraph.  Note that only the APOC tier
consumes `depth`: the simple query hard-codes its `[*0..2]` bound. -/
def getTransactionSubgraph (driver : Option Driver) (transaction_id : String)
    (depth : Nat) : Subgraph :=
  match driver with
  | none => generateMockSubgraph transaction_id
  | some drv =>
    if drv.apocAvailable then
      match apocTier drv.store transaction_id depth with
      | none => simpleOrMock drv.store transaction_id drv.reorder
      | some tr => projectTier drv.store tr
    else simpleOrMock drv.store transaction_id drv.reorder

/-- The ingestion input of `add_transaction`.  `device_id` is optional
(`transaction.get("device_id")` may be `None`); the scalar attributes are
kept as already-rendered strings, since `add_transaction` only forwards
them into property writes. -/
structure TxnInput where
  transaction_id : String
  user_id : String
  ip_address : String
  email : String
  device_id : Option String
  timestamp : String
  amount : String
  merchant : String
deriving DecidableEq, Repr

/-- One clause of the ingestion Cypher query: merge a node by label and
id, set properties on a merged node, or merge a typed relationship
between two merged nodes. -/
inductive GraphOp where
  | mergeNode (label : String) (id : String)
  | setProps (label : String) (id : String) (props : List (String × String))
  | mergeRel (fromLabel : String) (fromId : String) (relType : String)
      (toLabel : String) (toId : String)
deriving DecidableEq, Repr

/-- The clauses of the single Cypher statement run by
`GraphDatabaseManager.add_transaction`, in source order.  The device node
id is `COALESCE($device_id, 'unknown_device')`. -/
def addTransactionOps (txn : TxnInput) : List GraphOp :=
  [ .mergeNode "Transaction" txn.transaction_id,
    .setProps "Transaction" txn.transaction_id
      [("amount", txn.amount), ("merchant", txn.merchant), ("timestamp", txn.timestamp)],
    .mergeNode "User" txn.user_id,
    .mergeRel "User" txn.user_id "PERFORMED" "Transaction" txn.transaction_id,
    .mergeNode "IP" txn.ip_address,
    .mergeRel "User" txn.user_id "USED_IP" "IP" txn.ip_address,
    .mergeNode "Email" txn.email,
    .mergeRel "User" txn.user_id "HAS_EMAIL" "Email" txn.email,
    .mergeNode "Device" (txn.device_id.getD "unknown_device"),
    .mergeRel "User" txn.user_id "USED_DEVICE" "Device" (txn.device_id.getD "unknown_device") ]

/-- `GraphDatabaseManager.add_transaction`: with no driver the write is
skipped (no-op); otherwise the Cypher statement above is executed. -/
def addTransaction (driver : Option Driver) (txn : TxnInput) : List GraphOp :=
  match driver with
  | none => []
  | some _ => addTransactionOps txn

end FraudGraph

namespace FraudModel

open FraudGraph

/-- Python truthiness of an optional string attribute (`self.model`,
`self.explainer`): `None` and `""` are falsy, everything else truthy. -/
def pyTruthy : Option String → Bool
  | none => false
  | some s => !s.isEmpty

/-- The state of a `ModelService`: the `model` and `explainer` attributes
(string sentinels or `None`, exactly as the Python code stores them). -/
structure ModelService where
  model : Option String
  explainer : Option String
deriving DecidableEq, Repr

/-- `ModelService._load_model`: when the whole `try` body fails both
attributes end up `None`; when no model path is given (or the path is
falsy or missing on disk) the mock sentinels are installed; otherwise the
placeholder load installs the loaded sentinels. -/
def loadModel (model_path : Option String) (path_exists : String → Bool)
    (internal_error : Bool) : ModelService :=
  if internal_error then { model := none, explainer := none }
  else if !pyTruthy model_path || !path_exists (model_path.getD "") then
    { model := some "mock_model", explainer := some "mock_explainer" }
  else
    { model := some "mock_model_loaded", explainer := some "mock_explainer_loaded" }

/-- The dict returned by `ModelService.predict`.  Probabilities and
importances are embedded as rationals. -/
structure PredictResult where
  fraud_probability : ℚ
  risk_factors : List (String × ℚ)
deriving DecidableEq, Repr

/-- `ModelService.predict`: raise when `self.model` is falsy; otherwise
compute the mock probability `0.5 + (hash(txn_id) % 49) / 100` inside a
`try` whose `except` returns `{"fraud_probability": 0.0, "risk_factors":
[]}`.  The only fallible step of the embedded body is the
`transaction_data["transaction_id"]` key lookup; `hash` is embedded as an
oracle `h` (Python string hashing is process-seeded), and Python `%` on a
positive modulus is `Int.emod`. -/
def predict (svc : ModelService) (h : String → Int)
    (transaction_data : List (String × String)) : Except String PredictResult :=
  if !pyTruthy svc.model then .error "Model is not loaded."
  else
    match lookupProp transaction_data "transaction_id" with
    | none => .ok { fraud_probability := 0, risk_factors := [] }
    | some tid =>
      .ok { fraud_probability := 1 / 2 + (((h tid).emod 49 : ℚ)) / 100
            risk_factors := [("Model prediction (mock)", 4 / 5)] }

/-- `random.randint(lo, hi)` (both bounds inclusive), driven by one draw
of an integer random source. -/
def randint (lo hi : Nat) (draw : Nat) : Nat :=
  lo + draw % (hi - lo + 1)

/-- What `f"{w / 10.0}"` renders for a width `w` in 1..10: Python prints
these floats as `0.1` .. `0.9` and `1.0`. -/
def divTenRepr (w : Nat) : String :=
  if w = 10 then "1.0" else "0." ++ toString w

/-- `str.capitalize()`: first character upper-cased, the rest
lower-cased. -/
def pyCapitalize (s : String) : String :=
  match s.data with
  | [] => ""
  | c :: rest => String.mk (c.toUpper :: rest.map Char.toLower)

/-- `ModelService._get_node_color`: the fixed group → colour palette with
its `.get(group, "#bdc3c7")` default. -/
def getNodeColor (group : String) : String :=
  if group = "transaction" then "#e74c3c"
  else if group = "user" then "#3498db"
  else if group = "paymenttoken" then "#9b59b6"
  else if group = "email" then "#2ecc71"
  else if group = "ip" then "#f39c12"
  else if group = "device" then "#1abc9c"
  else "#bdc3c7"

/-- The per-node enrichment loop of `_generate_mock_explanation`: write
`label = f"{group.capitalize()}: {id[:6]}..."` and `color =
_get_node_color(group)` into the node dict, and mark the focal node
(`id == transaction_id`) with `shape = "star"`, `size = 25`. -/
def annotateNode (transaction_id : String) (n : SGNode) : SGNode :=
  let n := { n with
    label := some (pyCapitalize n.group ++ ": " ++ n.id.take 6 ++ "...")
    color := some (getNodeColor n.group) }
  if n.id = transaction_id then { n with shape := some "star", size := some 25 } else n

/-- The per-edge enrichment loop of `_generate_mock_explanation`: write
`width = random.randint(1, 10)` (one fresh draw per edge, supplied by the
random source `rng` indexed by edge position) and overwrite `title` with
`f"Importance: {width / 10.0}"`. -/
def annotateEdge (rng : Nat → Nat) (i : Nat) (e : SGEdge) : SGEdge :=
  let w := randint 1 10 (rng i)
  { e with width := some w, title := "Importance: " ++ divTenRepr w }

/-- The dict returned by `explain` / `_generate_mock_explanation`. -/
structure ExplainResult where
  nodes : List SGNode
  edges : List SGEdge
  summary : String
deriving DecidableEq, Repr

/-- `ModelService._generate_mock_explanation`.  The Python function
mutates the node and edge dicts of `graph_data` in place and returns a
dict holding those same lists; the embedding returns the pair
(post-call state of the caller's `graph_data` object, returned dict). -/
def generateMockExplanation (transaction_id : String) (graph_data : Subgraph)
    (rng : Nat → Nat) (error : Bool) : Subgraph × ExplainResult :=
  let ns := graph_data.nodes.map (annotateNode transaction_id)
  let es := (graph_data.edges.enum).map (fun p => annotateEdge rng p.1 p.2)
  let summary :=
    if error then
      "Could not generate explanation for " ++ transaction_id ++ ". Showing mock data."
    else
      "Analysis for " ++ transaction_id ++
        ": High risk. Transaction is linked via shared entities to other high-risk nodes."
  (⟨ns, es⟩, { nodes := ns, edges := es, summary := summary })

/-- `ModelService.explain`: raise when `self.explainer` is falsy;
otherwise run the slow mock path inside a `try` whose `except` calls
`_generate_mock_explanation(..., error=True)`.  `internal_error` models an
exception thrown anywhere in the `try` body. -/
def explain (svc : ModelService) (internal_error : Bool) (rng : Nat → Nat)
    (transaction_id : String) (graph_data : Subgraph) :
    Except String (Subgraph × ExplainResult) :=
  if !pyTruthy svc.explainer then .error "Explainer is not loaded."
  else if internal_error then
    .ok (generateMockExplanation transaction_id graph_data rng true)
  else
    .ok (generateMockExplanation transaction_id graph_data rng false)

end FraudModel

namespace FraudGraph

/-- A three-node store: transaction `t` — user `a` — email `b`, so `b`
lies exactly two undirected hops from `t`.  Element ids coincide with the
"id" properties for readability. -/
def chainStore : GraphStore :=
  { nodes :=
      [ { elementId := "t", labels := ["Transaction"], props := [("id", "t")] },
        { elementId := "a", labels := ["User"], props := [("id", "a")] },
        { elementId := "b", labels := ["Email"], props := [("id", "b")] } ]
    rels :=
      [ { relId := "r1", startId := "a", endId := "t", type := "PERFORMED" },
        { relId := "r2", startId := "a", endId := "b", type := "HAS_EMAIL" } ] }

/-- A driver over `chainStore` whose APOC capability is absent, so every
read goes through the simple bounded query; the store streams records in
path-enumeration order. -/
def chainDriver : Driver :=
  { store := chainStore, apocAvailable := false,
    reorder := id, reorder_perm := fun _ => List.Perm.refl _ }

/-- A three-node store: transaction `t` with two direct neighbours, user
`a` and IP `b`, both exactly one undirected hop from `t`. -/
def starStore : GraphStore :=
  { nodes :=
      [ { elementId := "t", labels := ["Transaction"], props := [("id", "t")] },
        { elementId := "a", labels := ["User"], props := [("id", "a")] },
        { elementId := "b", labels := ["IP"], props := [("id", "b")] } ]
    rels :=
      [ { relId := "r1", startId := "t", endId := "a", type := "PERFORMED_BY" },
        { relId := "r2", startId := "t", endId := "b", type := "USED_IP" } ] }

/-- A driver over `starStore` whose APOC capability is absent; the store
streams the fallback query's records in path-enumeration order. -/
def starDriver : Driver :=
  { store := starStore, apocAvailable := false,
    reorder := id, reorder_perm := fun _ => List.Perm.refl _ }

end FraudGraph

namespace FraudProofs

open FraudGraph FraudModel

/-- C2: with no driver, `get_transaction_subgraph` returns exactly the
fixed synthetic fallback subgraph for the requested transaction id,
independent of the depth argument: seven nodes (the transaction, one
user, one email, two payment tokens, two fraud transactions) and five
edges titled PERFORMED_BY, USED_TOKEN, SHARED_TOKEN_LINK, USED_IN,
USED_IN. -/
theorem C2_unreachable_store_returns_mock (transaction_id : String) (depth depth' : Nat) :
    getTransactionSubgraph none transaction_id depth = generateMockSubgraph transaction_id ∧
    getTransactionSubgraph none transaction_id depth =
      getTransactionSubgraph none transaction_id depth' ∧
    (getTransactionSubgraph none transaction_id depth).nodes.map SGNode.id =
      [transaction_id, "user_1", "pmt_A", "email_X", "fraud_1", "fraud_2", "pmt_B"] ∧
    (getTransactionSubgraph none transaction_id depth).nodes.map SGNode.group =
      ["transaction", "user", "paymenttoken", "email", "transaction", "transaction",
        "paymenttoken"] ∧
    (getTransactionSubgraph none transaction_id depth).edges.map SGEdge.title =
      ["PERFORMED_BY", "USED_TOKEN", "SHARED_TOKEN_LINK", "USED_IN", "USED_IN"] ∧
    (getTransactionSubgraph none transaction_id depth).edges.map
        (fun e => (e.source, e.target)) =
      [(transaction_id, "user_1"), ("user_1", "pmt_A"), ("pmt_A", "pmt_B"),
        ("pmt_B", "fraud_1"), ("pmt_B", "fraud_2")] :=
  ⟨rfl, rfl, rfl, rfl, rfl, rfl⟩

/-- C3: when the ingested record supplies no device id,
`add_transaction` merges a `USED_DEVICE` relationship from the user to
the sentinel device node `"unknown_device"`, and every `USED_DEVICE`
relationship it creates targets that sentinel. -/
theorem C3_device_sentinel (drv : Driver) (txn : TxnInput) (h : txn.device_id = none) :
    GraphOp.mergeRel "User" txn.user_id "USED_DEVICE" "Device" "unknown_device"
      ∈ addTransaction (some drv) txn ∧
    ∀ fl fid tl tid, GraphOp.mergeRel fl fid "USED_DEVICE" tl tid
      ∈ addTransaction (some drv) txn →
      fl = "User" ∧ fid = txn.user_id ∧ tl = "Device" ∧ tid = "unknown_device" := by
  constructor
  · simp [addTransaction, addTransactionOps, h]
  · intro fl fid tl tid hmem
    simp [addTransaction, addTransactionOps, h] at hmem
    simp_all

/-- Witness for C3 at a concrete ingestion record with `device_id`
absent. -/
theorem C3_device_sentinel_witness :
    GraphOp.mergeRel "User" "u1" "USED_DEVICE" "Device" "unknown_device"
      ∈ addTransaction (some chainDriver)
        { transaction_id := "tx1", user_id := "u1", ip_address := "1.2.3.4",
          email := "a@b.com", device_id := none,
          timestamp := "2024-01-01T00:00:00", amount := "42.0", merchant := "Acme" } :=
  (C3_device_sentinel chainDriver _ rfl).1

/-- C5: after annotation every node carries a label derived from its
group and the first six characters of its id, and a colour from the fixed
palette; the six known kinds get six pairwise-distinct colours and any
other group gets the neutral default; every node whose id equals the
queried transaction id carries shape `"star"` and size 25. -/
theorem C5_node_enrichment_complete (transaction_id : String) (gd : Subgraph)
    (rng : Nat → Nat) (error : Bool) :
    (∀ n ∈ (generateMockExplanation transaction_id gd rng error).2.nodes,
      n.label = some (pyCapitalize n.group ++ ": " ++ n.id.take 6 ++ "...") ∧
      n.color = some (getNodeColor n.group) ∧ n.label.isSome ∧ n.color.isSome ∧
      (n.id = transaction_id → n.shape = some "star" ∧ n.size = some 25)) ∧
    [getNodeColor "transaction", getNodeColor "user", getNodeColor "paymenttoken",
      getNodeColor "email", getNodeColor "ip", getNodeColor "device"].Pairwise (· ≠ ·) ∧
    (∀ g, g ∉ ["transaction", "user", "paymenttoken", "email", "ip", "device"] →
      getNodeColor g = "#bdc3c7") := by
  refine ⟨?_, by decide, ?_⟩
  · intro n hn
    simp only [generateMockExplanation, List.mem_map] at hn
    obtain ⟨m, _, rfl⟩ := hn
    by_cases hm : m.id = transaction_id <;> simp [annotateNode, hm]
  · intro g hg
    simp only [List.mem_cons, not_or] at hg
    simp [getNodeColor, hg.1, hg.2.1, hg.2.2.1, hg.2.2.2.1, hg.2.2.2.2.1, hg.2.2.2.2.2.1]

/-- C6: after annotation every edge carries a width in 1..10 (for every
outcome of the random draws) and a title rendering `width / 10.0`, so the
title is always consistent with the weight. -/
theorem C6_edge_weight_bounds (transaction_id : String) (gd : Subgraph)
    (rng : Nat → Nat) (error : Bool) :
    ∀ e ∈ (generateMockExplanation transaction_id gd rng error).2.edges,
      ∃ w, e.width = some w ∧ 1 ≤ w ∧ w ≤ 10 ∧
        e.title = "Importance: " ++ divTenRepr w := by
  intro e he
  simp only [generateMockExplanation, List.mem_map] at he
  obtain ⟨⟨i, e₀⟩, _, rfl⟩ := he
  refine ⟨randint 1 10 (rng i), rfl, ?_, ?_, rfl⟩
  · simp [randint]
  · have : rng i % 10 < 10 := Nat.mod_lt _ (by norm_num)
    simp [randint]
    omega

/-- C10: with a model loaded, `predict` never raises: every call returns
a result, and on the internal failure of the embedded body (the
transaction-id key lookup) the result is exactly
`{fraud_probability: 0.0, risk_factors: []}` — the same shape as a
genuine zero-risk answer. -/
theorem C10_predict_catches_internal_errors (svc : ModelService) (h : String → Int)
    (data : List (String × String)) (hm : pyTruthy svc.model = true) :
    (∃ r, predict svc h data = .ok r) ∧
    (lookupProp data "transaction_id" = none →
      predict svc h data = .ok { fraud_probability := 0, risk_factors := [] }) := by
  constructor
  · cases hl : lookupProp data "transaction_id" <;> simp [predict, hm, hl]
  · intro hl
    simp [predict, hm, hl]

/-- Witness for C10: a loaded mock service and a transaction dict lacking
the `transaction_id` key (the failing lookup) yield the zero-risk
fallback value. -/
theorem C10_predict_witness :
    predict { model := some "mock_model", explainer := some "mock_explainer" }
        (fun _ => 0) [("amount", "42.0")] =
      .ok { fraud_probability := 0, risk_factors := [] } :=
  (C10_predict_catches_internal_errors
    { model := some "mock_model", explainer := some "mock_explainer" }
    (fun _ => 0) [("amount", "42.0")] rfl).2 rfl

/-- C7: for every service state produced by `_load_model`, `predict`
raises the explicit "not loaded" signal exactly when no model is loaded
and `explain` raises exactly when no explainer is loaded; with the
model/explainer present the call returns a result. -/
theorem C7_not_loaded_iff (mp : Option String) (pe : String → Bool) (ie : Bool)
    (h : String → Int) (data : List (String × String)) (ierr : Bool)
    (rng : Nat → Nat) (tid : String) (gd : Subgraph) :
    ((predict (loadModel mp pe ie) h data).isOk = true ↔
      (loadModel mp pe ie).model ≠ none) ∧
    (predict (loadModel mp pe ie) h data = .error "Model is not loaded." ↔
      (loadModel mp pe ie).model = none) ∧
    ((explain (loadModel mp pe ie) ierr rng tid gd).isOk = true ↔
      (loadModel mp pe ie).explainer ≠ none) ∧
    (explain (loadModel mp pe ie) ierr rng tid gd = .error "Explainer is not loaded." ↔
      (loadModel mp pe ie).explainer = none) := by
  have e1 : ("mock_model").isEmpty = false := rfl
  have e2 : ("mock_explainer").isEmpty = false := rfl
  have e3 : ("mock_model_loaded").isEmpty = false := rfl
  have e4 : ("mock_explainer_loaded").isEmpty = false := rfl
  unfold loadModel
  split_ifs <;>
    cases hl : lookupProp data "transaction_id" <;> cases ierr <;>
      simp [predict, explain, pyTruthy, hl, Except.isOk, Except.toBool, e1, e2, e3, e4]

/-- C8: with the explainer present, an internal annotation failure still
returns a structurally valid explained subgraph — same annotated nodes
and edges as the success path, one node per input node, one edge per
input edge — whose summary states that the explanation could not be
generated and mock data is shown, and that summary differs from the
success-path summary for every transaction id. -/
theorem C8_degraded_summary (svc : ModelService) (rng : Nat → Nat)
    (transaction_id : String) (gd : Subgraph)
    (hx : pyTruthy svc.explainer = true) :
    ∃ bad good : Subgraph × ExplainResult,
      explain svc true rng transaction_id gd = .ok bad ∧
      explain svc false rng transaction_id gd = .ok good ∧
      bad.2.summary =
        "Could not generate explanation for " ++ transaction_id ++ ". Showing mock data." ∧
      bad.2.summary ≠ good.2.summary ∧
      bad.2.nodes = good.2.nodes ∧ bad.2.edges = good.2.edges ∧
      bad.2.nodes.length = gd.nodes.length ∧ bad.2.edges.length = gd.edges.length := by
  refine ⟨generateMockExplanation transaction_id gd rng true,
    generateMockExplanation transaction_id gd rng false,
    by simp [explain, hx], by simp [explain, hx], rfl, ?_, rfl, rfl, ?_, ?_⟩
  · intro heq
    have hlen := congrArg String.length heq
    simp [generateMockExplanation, String.length_append] at hlen
    have e1 : ("Could not generate explanation for ").length = 35 := rfl
    have e2 : (". Showing mock data.").length = 20 := rfl
    have e3 : ("Analysis for ").length = 13 := rfl
    have e4 : (": High risk. Transaction is linked via shared entities to other high-risk nodes.").length = 80 := rfl
    omega
  · simp [generateMockExplanation]
  · simp [generateMockExplanation]

/-- Witness for C8: the degraded response at a concrete loaded service,
transaction id and subgraph. -/
theorem C8_degraded_summary_witness :
    ∃ bad good : Subgraph × ExplainResult,
      explain { model := some "mock_model", explainer := some "mock_explainer" }
          true (fun _ => 3) "tx1" (generateMockSubgraph "tx1") = .ok bad ∧
      explain { model := some "mock_model", explainer := some "mock_explainer" }
          false (fun _ => 3) "tx1" (generateMockSubgraph "tx1") = .ok good ∧
      bad.2.summary =
        "Could not generate explanation for " ++ "tx1" ++ ". Showing mock data." ∧
      bad.2.summary ≠ good.2.summary ∧
      bad.2.nodes = good.2.nodes ∧ bad.2.edges = good.2.edges ∧
      bad.2.nodes.length = (generateMockSubgraph "tx1").nodes.length ∧
      bad.2.edges.length = (generateMockSubgraph "tx1").edges.length :=
  C8_degraded_summary { model := some "mock_model", explainer := some "mock_explainer" }
    (fun _ => 3) "tx1" (generateMockSubgraph "tx1") rfl

/-- Witness for C6 at a concrete annotated subgraph and its first edge. -/
theorem C6_edge_weight_bounds_witness :
    ∃ w, (annotateEdge (fun _ => 3) 0
        { source := "tx1", target := "user_1", title := "PERFORMED_BY" }).width = some w ∧
      1 ≤ w ∧ w ≤ 10 ∧
      (annotateEdge (fun _ => 3) 0
        { source := "tx1", target := "user_1", title := "PERFORMED_BY" }).title =
        "Importance: " ++ divTenRepr w :=
  C6_edge_weight_bounds "tx1" (generateMockSubgraph "tx1") (fun _ => 3) false _ (by decide)

/-- Helper: a map that fixes a list fixes each of its members. -/
theorem map_fixes_of_map_eq_self {α : Type} {f : α → α} :
    ∀ {l : List α}, l.map f = l → ∀ x ∈ l, f x = x := by
  intro l
  induction l with
  | nil => intro _ x hx; cases hx
  | cons a l ih =>
    intro h x hx
    simp only [List.map_cons, List.cons.injEq] at h
    rcases List.mem_cons.mp hx with rfl | hx
    · exact h.1
    · exact ih h.2 x hx

/-- C9 counterexample: at a concrete one-node subgraph the caller's
`graph_data` object is mutated by the annotation call — its post-call
state differs from the value passed in, refuting "the input subgraph
argument is left unchanged". -/
theorem C9_counterexample :
    (generateMockExplanation "tx"
        { nodes := [{ id := "n1", group := "user" }], edges := [] }
        (fun _ => 0) false).1 ≠
      ({ nodes := [{ id := "n1", group := "user" }], edges := [] } : Subgraph) := by
  decide

/-- C9 amended: the annotation writes into its input in place rather
than building a separate output: the returned nodes and edges are
exactly the (annotated) lists of the caller's mutated `graph_data`, and
whenever some input node lacks a `label` the input object is changed by
the call. -/
theorem C9_mutates_input_in_place (transaction_id : String) (gd : Subgraph)
    (rng : Nat → Nat) (error : Bool) :
    ((generateMockExplanation transaction_id gd rng error).1.nodes =
        (generateMockExplanation transaction_id gd rng error).2.nodes ∧
      (generateMockExplanation transaction_id gd rng error).1.edges =
        (generateMockExplanation transaction_id gd rng error).2.edges ∧
      (generateMockExplanation transaction_id gd rng error).1.nodes =
        gd.nodes.map (annotateNode transaction_id)) ∧
    (∀ n ∈ gd.nodes, n.label = none →
      (generateMockExplanation transaction_id gd rng error).1 ≠ gd) := by
  refine ⟨⟨rfl, rfl, rfl⟩, ?_⟩
  intro n hn hlab heq
  have hnodes : gd.nodes.map (annotateNode transaction_id) = gd.nodes :=
    congrArg Subgraph.nodes heq
  have hfix : annotateNode transaction_id n = n :=
    map_fixes_of_map_eq_self hnodes n hn
  have hlabel := congrArg SGNode.label hfix
  by_cases hid : n.id = transaction_id <;> simp [annotateNode, hid, hlab] at hlabel

/-- C4 counterexample: on the synthetic fallback tier (store
unreachable) the returned nodes do not all carry a `properties` field,
refuting "every node on every tier carries all three fields". -/
theorem C4_counterexample :
    ¬ ∀ n ∈ (getTransactionSubgraph none "tx1" 2).nodes, n.properties.isSome = true := by
  decide

/-- C4 amended: every node returned by `get_transaction_subgraph` either
comes from the store projection — and then carries all three fields,
with `group` the lowercase first label (or "unknown" with no labels) and
`id` the explicit id property when present, the internal identity
otherwise — or is a synthetic-fallback node, which carries only `id` and
`group` and no `properties` field. -/
theorem C4_node_projection (driver : Option Driver) (transaction_id : String)
    (depth : Nat) :
    ∀ n ∈ (getTransactionSubgraph driver transaction_id depth).nodes,
      (∃ sn : StoreNode, n = projectNode sn ∧ n.properties = some sn.props ∧
        n.group = (match sn.labels with | [] => "unknown" | l :: _ => l.toLower) ∧
        n.id = (lookupProp sn.props "id").getD sn.elementId) ∨
      (n.properties = none ∧ n ∈ (generateMockSubgraph transaction_id).nodes) := by
  intro n hn
  have hmock : ∀ m ∈ (generateMockSubgraph transaction_id).nodes, m.properties = none := by
    intro m hm
    simp [generateMockSubgraph] at hm
    rcases hm with rfl | rfl | rfl | rfl | rfl | rfl | rfl <;> rfl
  have hsom : ∀ (g : GraphStore)
      (ro : List (List StoreNode × List StoreRel) → List (List StoreNode × List StoreRel)),
      n ∈ (simpleOrMock g transaction_id ro).nodes →
      n ∈ (generateMockSubgraph transaction_id).nodes ∨
        ∃ sn : StoreNode, n = projectNode sn := by
    intro g ro hg
    unfold simpleOrMock at hg
    split at hg
    · exact Or.inl hg
    · split at hg
      · exact Or.inl hg
      · simp only [projectTier, List.mem_map] at hg
        obtain ⟨sn, _, rfl⟩ := hg
        exact Or.inr ⟨sn, rfl⟩
  have hmain : n ∈ (generateMockSubgraph transaction_id).nodes ∨
      ∃ sn : StoreNode, n = projectNode sn := by
    cases driver with
    | none => exact Or.inl hn
    | some drv =>
      simp only [getTransactionSubgraph] at hn
      by_cases hap : drv.apocAvailable = true
      · rw [if_pos hap] at hn
        split at hn
        · exact hsom drv.store drv.reorder hn
        · simp only [projectTier, List.mem_map] at hn
          obtain ⟨sn, _, rfl⟩ := hn
          exact Or.inr ⟨sn, rfl⟩
      · rw [if_neg hap] at hn
        exact hsom drv.store drv.reorder hn
  rcases hmain with hmk | ⟨sn, rfl⟩
  · exact Or.inr ⟨hmock n hmk, hmk⟩
  · exact Or.inl ⟨sn, rfl, rfl, rfl, rfl⟩

/-- Witness for C4 at a concrete synthetic-tier node. -/
theorem C4_node_projection_witness :
    (∃ sn : StoreNode, ({ id := "tx1", group := "transaction" } : SGNode) = projectNode sn ∧
      ({ id := "tx1", group := "transaction" } : SGNode).properties = some sn.props ∧
      ({ id := "tx1", group := "transaction" } : SGNode).group =
        (match sn.labels with | [] => "unknown" | l :: _ => l.toLower) ∧
      ({ id := "tx1", group := "transaction" } : SGNode).id =
        (lookupProp sn.props "id").getD sn.elementId) ∨
    (({ id := "tx1", group := "transaction" } : SGNode).properties = none ∧
      ({ id := "tx1", group := "transaction" } : SGNode) ∈
        (generateMockSubgraph "tx1").nodes) :=
  C4_node_projection none "tx1" 2 _ (by decide)

/-- Helper: membership in the undirected-neighbour list. -/
theorem mem_nbrs {g : GraphStore} {t x : String} :
    x ∈ nbrs g t ↔ ∃ r ∈ g.rels, relTouches r t = some x := by
  simp only [nbrs, nbrsVia, List.mem_map, List.mem_filterMap, Option.map_eq_some']
  constructor
  · rintro ⟨p, ⟨r, hr, y, hy, rfl⟩, rfl⟩
    exact ⟨r, hr, hy⟩
  · rintro ⟨r, hr, hy⟩
    exact ⟨(r, x), ⟨r, hr, x, hy, rfl⟩, rfl⟩

/-- Helper: membership in the neighbour list with its relationship. -/
theorem mem_nbrsVia {g : GraphStore} {t : String} {p : StoreRel × String} :
    p ∈ nbrsVia g t ↔ p.1 ∈ g.rels ∧ relTouches p.1 t = some p.2 := by
  obtain ⟨r, y⟩ := p
  simp only [nbrsVia, List.mem_filterMap, Option.map_eq_some']
  constructor
  · rintro ⟨r', hr', y', hy', h⟩
    obtain ⟨rfl, rfl⟩ := Prod.mk.injEq .. ▸ h
    exact ⟨hr', hy'⟩
  · rintro ⟨hr, hy⟩
    exact ⟨r, hr, y, hy, rfl⟩

/-- Helper: one traversal layer of `ball`. -/
theorem mem_ball_succ {g : GraphStore} {t x : String} {k : Nat} :
    x ∈ ball g t (k + 1) ↔ x ∈ ball g t k ∨ ∃ a ∈ ball g t k, x ∈ nbrs g a := by
  simp [ball, List.mem_append, List.mem_flatMap]

/-- Helper: the one-hop neighbourhood. -/
theorem mem_ball_one {g : GraphStore} {t x : String} :
    x ∈ ball g t 1 ↔ x = t ∨ x ∈ nbrs g t := by
  rw [show (1 : Nat) = 0 + 1 from rfl, mem_ball_succ]
  simp [ball]

/-- Helper: the two-hop neighbourhood. -/
theorem mem_ball_two {g : GraphStore} {t x : String} :
    x ∈ ball g t 2 ↔ x = t ∨ x ∈ nbrs g t ∨ ∃ a, a ∈ nbrs g t ∧ x ∈ nbrs g a := by
  rw [show (2 : Nat) = 1 + 1 from rfl, mem_ball_succ]
  constructor
  · rintro (h1 | ⟨a, ha, hx⟩)
    · rcases mem_ball_one.mp h1 with rfl | h
      · exact Or.inl rfl
      · exact Or.inr (Or.inl h)
    · rcases mem_ball_one.mp ha with rfl | h
      · exact Or.inr (Or.inl hx)
      · exact Or.inr (Or.inr ⟨a, h, hx⟩)
  · rintro (rfl | h | ⟨a, ha, hx⟩)
    · exact Or.inl (mem_ball_one.mpr (Or.inl rfl))
    · exact Or.inl (mem_ball_one.mpr (Or.inr h))
    · exact Or.inr ⟨a, mem_ball_one.mpr (Or.inr ha), hx⟩

/-- Helper: `collect(DISTINCT ...)` only returns elements of its row
list. -/
theorem mem_of_mem_distinctAux {α : Type} [DecidableEq α] {x : α} :
    ∀ (l seen : List α), x ∈ distinctAux seen l → x ∈ l := by
  intro l
  induction l with
  | nil => intro seen h; cases h
  | cons a l ih =>
    intro seen h
    simp only [distinctAux] at h
    split at h
    · exact List.mem_cons_of_mem _ (ih seen h)
    · rcases List.mem_cons.mp h with rfl | h'
      · exact List.mem_cons_self _ _
      · exact List.mem_cons_of_mem _ (ih (a :: seen) h')

/-- Helper: an element of the deduplicated list is an element of the
original list. -/
theorem mem_of_mem_distinctList {α : Type} [DecidableEq α] {x : α} {l : List α}
    (h : x ∈ distinctList l) : x ∈ l :=
  mem_of_mem_distinctAux l [] h

/-- Helper: the head returned by `head?` belongs to the list. -/
theorem mem_of_head_some {α : Type} {l : List α} {a : α}
    (h : l.head? = some a) : a ∈ l := by
  cases l with
  | nil => cases h
  | cons x xs =>
    simp only [List.head?, Option.some.injEq] at h
    subst h
    exact List.mem_cons_self x xs

/-- Helper: every endpoint of an enumerated length-1-or-2 path lies
within two undirected hops of the start node. -/
theorem ball2_of_mem_pathEndpoints {g : GraphStore} {t x : String}
    (h : x ∈ pathEndpoints g t) : x ∈ ball g t 2 := by
  simp only [pathEndpoints, List.mem_append, List.mem_flatMap, List.mem_map,
    List.mem_filter, decide_not, Bool.not_eq_true', decide_eq_false_iff_not] at h
  rcases h with h | ⟨p, hp, q, ⟨hq, hne⟩, rfl⟩
  · exact mem_ball_two.mpr (Or.inr (Or.inl h))
  · obtain ⟨hp1, hp2⟩ := mem_nbrsVia.mp hp
    obtain ⟨hq1, hq2⟩ := mem_nbrsVia.mp hq
    exact mem_ball_two.mpr (Or.inr (Or.inr ⟨p.2, mem_nbrs.mpr ⟨p.1, hp1, hp2⟩,
      mem_nbrs.mpr ⟨q.1, hq1, hq2⟩⟩))

/-- C1 counterexample: on the star store (transaction `t` with the two
one-hop neighbours `a` and `b`, APOC absent, records streamed in
path-enumeration order), a query with `depth = 1` misses the one-hop
neighbour `b`: the query's implicit grouping leaves one record per path
endpoint and `result.single()` consumes only the first, so the returned
subgraph is the sliver `[t, a]`, not the 0..1-hop neighbourhood. -/
theorem C1_counterexample :
    "b" ∈ ball starStore "t" 1 ∧
    "b" ∉ ((getTransactionSubgraph (some starDriver) "t" 1).nodes.map SGNode.id) := by
  decide

/-- C1 amended: when rich traversal is unavailable or fails, the simple
fallback does not return the 0..depth neighbourhood: for every stream
order the store may choose, `get_transaction_subgraph` returns either
the mock subgraph or the projection of one single record — the
transaction node together with one path endpoint lying within the
hard-coded 0..2-hop bound of the query (`[*0..2]`) and the relationships
of the enumerated paths to that endpoint — hence at most two nodes, and
the result is independent of the requested depth. -/
theorem C1_simple_fallback_single_record (drv : Driver) (transaction_id : String)
    (d d' : Nat) (hap : drv.apocAvailable = false) :
    getTransactionSubgraph (some drv) transaction_id d =
      getTransactionSubgraph (some drv) transaction_id d' ∧
    (getTransactionSubgraph (some drv) transaction_id d =
        generateMockSubgraph transaction_id ∨
      ∃ t : StoreNode, ∃ nid : String,
        findTransaction drv.store transaction_id = some t ∧
        nid ∈ ball drv.store t.elementId 2 ∧
        getTransactionSubgraph (some drv) transaction_id d =
          projectTier drv.store (recordForEndpoint drv.store t nid) ∧
        (getTransactionSubgraph (some drv) transaction_id d).nodes =
          (t :: (findNode drv.store nid).toList).map projectNode ∧
        (getTransactionSubgraph (some drv) transaction_id d).nodes.length ≤ 2) := by
  have hgts : getTransactionSubgraph (some drv) transaction_id d =
      simpleOrMock drv.store transaction_id drv.reorder := by
    simp [getTransactionSubgraph, hap]
  have hgts' : getTransactionSubgraph (some drv) transaction_id d' =
      simpleOrMock drv.store transaction_id drv.reorder := by
    simp [getTransactionSubgraph, hap]
  have key : simpleOrMock drv.store transaction_id drv.reorder =
      generateMockSubgraph transaction_id ∨
      ∃ t : StoreNode, ∃ nid : String,
        findTransaction drv.store transaction_id = some t ∧
        nid ∈ ball drv.store t.elementId 2 ∧
        simpleOrMock drv.store transaction_id drv.reorder =
          projectTier drv.store (recordForEndpoint drv.store t nid) := by
    cases hft : findTransaction drv.store transaction_id with
    | none =>
      left
      simp [simpleOrMock, simpleTier, hft]
    | some t =>
      have hsimp : simpleOrMock drv.store transaction_id drv.reorder =
          (match (drv.reorder (simpleRecords drv.store t)).head? with
            | none => generateMockSubgraph transaction_id
            | some tr =>
              if (projectTier drv.store tr).nodes.isEmpty then
                generateMockSubgraph transaction_id
              else projectTier drv.store tr) := by
        simp [simpleOrMock, simpleTier, hft]
      rw [hsimp]
      cases hst : (drv.reorder (simpleRecords drv.store t)).head? with
      | none => exact Or.inl rfl
      | some tr =>
        have htr : tr ∈ simpleRecords drv.store t :=
          ((drv.reorder_perm (simpleRecords drv.store t)).mem_iff).mp
            (mem_of_head_some hst)
        simp only [simpleRecords, List.mem_map] at htr
        obtain ⟨nid, hnid, rfl⟩ := htr
        have hb2 : nid ∈ ball drv.store t.elementId 2 :=
          ball2_of_mem_pathEndpoints (mem_of_mem_distinctList hnid)
        by_cases hemp :
            ((projectTier drv.store (recordForEndpoint drv.store t nid)).nodes).isEmpty = true
        · exact Or.inl (by simp [hemp])
        · exact Or.inr ⟨t, nid, rfl, hb2, by simp [hemp]⟩
  refine ⟨hgts.trans hgts'.symm, ?_⟩
  rcases key with hk | ⟨t, nid, hft, hb2, hk⟩
  · exact Or.inl (hgts.trans hk)
  · refine Or.inr ⟨t, nid, hft, hb2, hgts.trans hk, ?_, ?_⟩
    · rw [hgts, hk]; rfl
    · rw [hgts, hk]
      show ((t :: (findNode drv.store nid).toList).map projectNode).length ≤ 2
      cases hfn : findNode drv.store nid <;> simp

/-- Witness for C1's amended theorem at the star store with APOC absent
and depths 1 and 5. -/
theorem C1_single_record_witness :
    getTransactionSubgraph (some starDriver) "t" 1 =
      getTransactionSubgraph (some starDriver) "t" 5 ∧
    (getTransactionSubgraph (some starDriver) "t" 1 = generateMockSubgraph "t" ∨
      ∃ t : StoreNode, ∃ nid : String,
        findTransaction starStore "t" = some t ∧
        nid ∈ ball starStore t.elementId 2 ∧
        getTransactionSubgraph (some starDriver) "t" 1 =
          projectTier starStore (recordForEndpoint starStore t nid) ∧
        (getTransactionSubgraph (some starDriver) "t" 1).nodes =
          (t :: (findNode starStore nid).toList).map projectNode ∧
        (getTransactionSubgraph (some starDriver) "t" 1).nodes.length ≤ 2) :=
  C1_simple_fallback_single_record starDriver "t" 1 5 rfl

end FraudProofs
